import Mathlib

/-!
# Verification of the RAG chat backend and frontend glue

Shallow embedding of `src/backend/main.py` and `src/frontend/app.py` of the
`RAG_project` repository.  The external AWS Bedrock services (knowledge-base
retrieval and model invocation) are modelled as oracle functions passed in as
parameters; a call that raises a Python exception is modelled as
`Except.error msg` where `msg` is the exception text (`str(e)`).
-/

namespace RAGProject

/-- A chat message, embedding the pydantic `Message` model
(`role: str`, `content: str`). -/
structure Message where
  role : String
  content : String
deriving Repr, DecidableEq

/-- The request body of both endpoints, embedding the pydantic
`ChatRequest` model (`messages: list[Message]`). -/
structure ChatRequest where
  messages : List Message
deriving Repr, DecidableEq

/-- One element of the `content` list of the model service's JSON response;
its `text` field may be absent (`none`). -/
structure ContentItem where
  text : Option String
deriving Repr, DecidableEq

/-- The JSON body returned by `bedrock_client.invoke_model`: a `content`
field that may be absent or null (`none`) and otherwise holds a list. -/
structure ModelResponse where
  content : Option (List ContentItem)
deriving Repr, DecidableEq

/-- One message inside the payload sent to the model service. -/
structure LLMMessage where
  role : String
  content : String
deriving Repr, DecidableEq

/-- The JSON payload `generate_llm_answer` builds for `invoke_model`. -/
structure LLMPayload where
  anthropic_version : String
  max_tokens : Nat
  temperature : ℚ
  messages : List LLMMessage
  system : String
deriving Repr, DecidableEq

/-- The request `retrieve_from_kb` sends to `kb_client.retrieve`:
the query text and `numberOfResults`. -/
structure KBRequest where
  queryText : String
  numberOfResults : Nat
deriving Repr, DecidableEq

/-- The `content` object of one knowledge-base retrieval result; its
`text` field may be absent. -/
structure KBContent where
  text : Option String
deriving Repr, DecidableEq

/-- One element of the `retrievalResults` list returned by the
knowledge-base service; its `content` field may be absent. -/
structure KBResult where
  content : Option KBContent
deriving Repr, DecidableEq

/-- The knowledge-base service oracle: maps the retrieve request to the
`retrievalResults` list, or to the text of a raised exception. -/
def KBService : Type := KBRequest → Except String (List KBResult)

/-- The model service oracle: maps the payload to the parsed JSON response
body, or to the text of a raised exception. -/
def ModelService : Type := LLMPayload → Except String ModelResponse

/-- The unwrapping in `generate_llm_answer` (main.py lines 74-76):
`if result_json.get("content"): return result_json["content"][0].get("text", "")`
else `return "No response from model."`.  A missing or null `content` and an
empty `content` list are both falsy in Python. -/
def unwrapModelResponse (r : ModelResponse) : String :=
  match r.content with
  | some (item :: _) => item.text.getD ""
  | _ => "No response from model."

/-- The payload `generate_llm_answer` builds (main.py lines 57-63). -/
def mkLLMPayload (prompt : String) (max_tokens : Nat) (temperature : ℚ) :
    LLMPayload :=
  { anthropic_version := "bedrock-2023-05-31"
    max_tokens := max_tokens
    temperature := temperature
    messages := [{ role := "user", content := prompt }]
    system := "You are a helpful assistant." }

/-- `generate_llm_answer(prompt, max_tokens=1024, temperature=0.5)`
(main.py lines 55-76): send the payload to the model service and unwrap
the response. -/
def generate_llm_answer (model : ModelService) (prompt : String)
    (max_tokens : Nat := 1024) (temperature : ℚ := 0.5) :
    Except String String :=
  (model (mkLLMPayload prompt max_tokens temperature)).map unwrapModelResponse

/-- The formatting of retrieval results in `retrieve_from_kb`
(main.py lines 91-97): enumerate the candidates, keep those with a
`content.text` field, format each as `Document {i+1}: {text}` using its
index in the full candidate list, and join with blank lines. -/
def formatKBResults (candidates : List KBResult) : String :=
  String.intercalate "\n\n"
    (candidates.enum.filterMap fun p =>
      match p.2.content with
      | some c => c.text.map fun t =>
          "Document " ++ toString (p.1 + 1) ++ ": " ++ t
      | none => none)

/-- `retrieve_from_kb(query, top_k=3)` (main.py lines 81-97): one retrieve
call with the query text and `numberOfResults = top_k`, then format the
returned results. -/
def retrieve_from_kb (kb : KBService) (query : String) (top_k : Nat := 3) :
    Except String String :=
  (kb { queryText := query, numberOfResults := top_k }).map formatKBResults

/-- The `"\n".join(f"{msg['role']}: {msg['content']}" ...)` formatting of
the conversation history in `generate_rag_answer` (main.py line 105). -/
def conversationText (history : List Message) : String :=
  String.intercalate "\n" (history.map fun msg => msg.role ++ ": " ++ msg.content)

/-- The prompt f-string built in `generate_rag_answer`
(main.py lines 108-126), character for character. -/
def ragPrompt (kb_context conversation_text user_query : String) : String :=
  "\n### Knowledge Base:\n" ++ kb_context ++
  "\n\n### Conversation History:\n" ++ conversation_text ++
  "\n\n### User Query:\n" ++ user_query ++
  "\n\n### Response Instructions:\n" ++
  "1. Provide clear, well-structured answers using normal text formatting.\n" ++
  "2. Use simple paragraphs separated by line breaks.\n" ++
  "3. If listing items, use simple bullet points with dashes (-) or numbers.\n" ++
  "4. Do NOT use markdown headers (# ## ###) or excessive bold formatting.\n" ++
  "5. Keep the text readable with normal font weight.\n" ++
  "\n### Response:\n"

/-- `generate_rag_answer(user_query, conversation_history)`
(main.py lines 99-127): retrieve context, format the history, build the
prompt, and call `generate_llm_answer` with the default `max_tokens` and
`temperature`. -/
def generate_rag_answer (kb : KBService) (model : ModelService)
    (user_query : String) (conversation_history : List Message) :
    Except String String := do
  let kb_context ← retrieve_from_kb kb user_query
  generate_llm_answer model
    (ragPrompt kb_context (conversationText conversation_history) user_query)

/-- Python's `str.split()` with no argument, on the underlying character
list: split on runs of whitespace and drop empty pieces.  `acc` holds the
reversed characters of the word being read. -/
def pySplitAux : List Char → List Char → List (List Char)
  | [], [] => []
  | [], acc => [acc.reverse]
  | c :: cs, acc =>
    if c.isWhitespace then
      match acc with
      | [] => pySplitAux cs []
      | _ :: _ => acc.reverse :: pySplitAux cs []
    else pySplitAux cs (c :: acc)

/-- Python's `answer.split()` (main.py line 134). -/
def pySplit (s : String) : List String :=
  (pySplitAux s.data []).map fun l => String.mk l

/-- The fixed delay `asyncio.sleep(0.05)` after each yielded chunk
(main.py line 136), in seconds. -/
def streamDelay : ℚ := 0.05

/-- `stream_generator(user_query, conversation_history)`
(main.py lines 132-136): compute the whole answer with one
`generate_rag_answer` call, then yield `word + " "` for each word of
`answer.split()`, sleeping `0.05` seconds after each chunk.  The result is
the list of (chunk, delay-after-chunk) events, or the text of an exception
raised while computing the answer. -/
def stream_generator (kb : KBService) (model : ModelService)
    (user_query : String) (conversation_history : List Message) :
    Except String (List (String × ℚ)) :=
  (generate_rag_answer kb model user_query conversation_history).map fun answer =>
    (pySplit answer).map fun word => (word ++ " ", streamDelay)

/-- The JSON object returned by `/rag/query`: either
`{"response": ...}` or `{"error": ...}`, never both. -/
inductive QueryResult where
  | response (s : String)
  | error (s : String)
deriving Repr, DecidableEq

/-- The text of the Python `IndexError` raised by `messages[-1]` on an
empty list. -/
def indexErrorText : String := "list index out of range"

/-- The body of the `try` block of `rag_query_endpoint`
(main.py lines 144-152): extract the history (all but the last message)
and the last message's content, then call `generate_rag_answer`.
`messages[-1]` on an empty list raises `IndexError`. -/
def ragQueryBody (kb : KBService) (model : ModelService)
    (request : ChatRequest) : Except String String :=
  match request.messages.getLast? with
  | none => .error indexErrorText
  | some lastMsg =>
      generate_rag_answer kb model lastMsg.content request.messages.dropLast

/-- `rag_query_endpoint` (main.py lines 141-154): run the body and catch
every exception, returning `{"response": answer}` on success and
`{"error": str(e)}` on any raise. -/
def rag_query_endpoint (kb : KBService) (model : ModelService)
    (request : ChatRequest) : QueryResult :=
  match ragQueryBody kb model request with
  | .ok answer => .response answer
  | .error e => .error e

/-- The `StreamingResponse` returned by `/rag/stream`: the generator's
event stream (computed lazily, hence itself fallible) and the media type. -/
structure StreamingResponse where
  body : Except String (List (String × ℚ))
  media_type : String
deriving Repr

/-- `rag_stream_endpoint` (main.py lines 156-163): extract the history and
the last message's content with no exception handler — on an empty
`messages` list the `IndexError` propagates (`Except.error`) — and
otherwise return a `StreamingResponse` over `stream_generator` with media
type `"text/plain"`. -/
def rag_stream_endpoint (kb : KBService) (model : ModelService)
    (request : ChatRequest) : Except String StreamingResponse :=
  match request.messages.getLast? with
  | none => .error indexErrorText
  | some lastMsg =>
      .ok { body := stream_generator kb model lastMsg.content
                      request.messages.dropLast
            media_type := "text/plain" }

/-- The parsed JSON object the frontend receives from `/rag/query`: the
values of its `"error"` and `"response"` keys, `none` when absent. -/
structure BackendResult where
  error : Option String
  response : Option String
deriving Repr, DecidableEq

/-- The outcome of the HTTP interaction inside `send_query`
(app.py lines 43-47): a parsed JSON result, a
`requests.exceptions.RequestException` (including the `HTTPError` from
`raise_for_status`), a `json.JSONDecodeError`, or any other exception. -/
inductive HTTPOutcome where
  | ok (result : BackendResult)
  | requestException (msg : String)
  | jsonDecodeError
  | otherException (msg : String)
deriving Repr, DecidableEq

/-- `format_messages_for_api` (app.py lines 30-38): rebuild each message
as a `{role, content}` object and wrap the list under `"messages"`. -/
def format_messages_for_api (messages : List Message) : ChatRequest :=
  { messages := messages.map fun msg => { role := msg.role, content := msg.content } }

/-- `send_query` (app.py lines 40-57): turn every outcome into a string —
the `"response"` value on success, `"No response received"` when that key
is absent, `"Error: "` + the `"error"` value when the backend returned an
error object (checked before `"response"`), `"Connection error: "` + the
exception text for a request exception, `"Error: Invalid response format"`
for a JSON decode failure, and `"Unexpected error: "` + the exception text
otherwise. -/
def send_query (outcome : HTTPOutcome) : String :=
  match outcome with
  | .ok result =>
      match result.error with
      | some e => "Error: " ++ e
      | none => result.response.getD "No response received"
  | .requestException m => "Connection error: " ++ m
  | .jsonDecodeError => "Error: Invalid response format"
  | .otherException m => "Unexpected error: " ++ m

/-- Whether a retrieval result has a `content.text` field, i.e. survives
the filter of the list comprehension in `retrieve_from_kb`. -/
def hasKBText (doc : KBResult) : Bool :=
  match doc.content with
  | some c => c.text.isSome
  | none => false

/-- The `content.text` of a retrieval result (empty for results without
one; only used on results satisfying `hasKBText`). -/
def kbTextOf (doc : KBResult) : String :=
  match doc.content with
  | some c => c.text.getD ""
  | none => ""

/-! ## Helper lemmas -/

/-- Every word produced by `pySplitAux` from a whitespace-free accumulator
is non-empty and contains no whitespace character. -/
theorem pySplitAux_sound (cs : List Char) :
    ∀ acc : List Char, (∀ c ∈ acc, ¬ c.isWhitespace) →
    ∀ w ∈ pySplitAux cs acc, w ≠ [] ∧ ∀ c ∈ w, ¬ c.isWhitespace := by
  induction cs with
  | nil =>
      intro acc hacc w hw
      cases acc with
      | nil => simp [pySplitAux] at hw
      | cons a as =>
          simp only [pySplitAux, List.mem_singleton] at hw
          subst hw
          refine ⟨by simp, fun c hc => hacc c ?_⟩
          exact List.mem_reverse.mp hc
  | cons c cs ih =>
      intro acc hacc w hw
      by_cases hws : c.isWhitespace
      · cases acc with
        | nil =>
            simp only [pySplitAux, if_pos hws] at hw
            exact ih [] (by simp) w hw
        | cons a as =>
            simp only [pySplitAux, if_pos hws, List.mem_cons] at hw
            rcases hw with h | h
            · subst h
              refine ⟨by simp, fun x hx => hacc x ?_⟩
              exact List.mem_reverse.mp hx
            · exact ih [] (by simp) w h
      · simp only [pySplitAux, if_neg hws] at hw
        refine ih (c :: acc) ?_ w hw
        intro x hx
        rcases List.mem_cons.mp hx with h | h
        · exact h ▸ hws
        · exact hacc x h

/-- Every word of `pySplit s` is a non-empty string with no whitespace. -/
theorem pySplit_sound (s : String) :
    ∀ w ∈ pySplit s, w ≠ "" ∧ ∀ c ∈ w.data, ¬ c.isWhitespace := by
  intro w hw
  simp only [pySplit, List.mem_map] at hw
  obtain ⟨l, hl, rfl⟩ := hw
  obtain ⟨hne, hws⟩ := pySplitAux_sound s.data [] (by simp) l hl
  refine ⟨?_, hws⟩
  intro h
  apply hne
  have : (String.mk l).data = ("" : String).data := by rw [h]
  simpa using this

/-- The `filterMap` formatting of `formatKBResults` is the filter of the
enumerated candidates retaining a `content.text`, mapped to
`Document {i+1}: {text}` with the original index `i`. -/
theorem filterMap_eq_filter_map_kb (l : List (Nat × KBResult)) :
    (l.filterMap fun p =>
      match p.2.content with
      | some c => c.text.map fun t => "Document " ++ toString (p.1 + 1) ++ ": " ++ t
      | none => none) =
    (l.filter fun p => hasKBText p.2).map
      (fun p => "Document " ++ toString (p.1 + 1) ++ ": " ++ kbTextOf p.2) := by
  induction l with
  | nil => rfl
  | cons p l ih =>
      obtain ⟨i, doc⟩ := p
      cases hdoc : doc.content with
      | none =>
          simp only [List.filterMap_cons, List.filter_cons, hdoc, hasKBText]
          simpa [hdoc, hasKBText] using ih
      | some c =>
          cases htext : c.text with
          | none =>
              simp [List.filterMap_cons, List.filter_cons, hdoc, htext, hasKBText, ih]
          | some t =>
              simp [List.filterMap_cons, List.filter_cons, hdoc, htext, hasKBText,
                kbTextOf, ih]

/-! ## Claims -/

/-- C8: on an empty `messages` list, `/rag/query` catches the `IndexError`
from `messages[-1]` and returns an error object, while `/rag/stream`
performs the same indexing with no handler and raises the `IndexError`
before any streaming response is produced. -/
theorem claim_C8 (kb : KBService) (model : ModelService) :
    rag_query_endpoint kb model { messages := [] } =
      QueryResult.error indexErrorText ∧
    rag_stream_endpoint kb model { messages := [] } =
      Except.error indexErrorText :=
  ⟨rfl, rfl⟩

/-- C10: after every chunk, `stream_generator` sleeps exactly `0.05`
seconds, independent of the word, the answer, or the request. -/
theorem claim_C10 (kb : KBService) (model : ModelService) (q : String)
    (hist : List Message) (evs : List (String × ℚ))
    (h : stream_generator kb model q hist = .ok evs) :
    (∀ ev ∈ evs, ev.2 = streamDelay) ∧ streamDelay = 5 / 100 := by
  constructor
  · cases hg : generate_rag_answer kb model q hist with
    | error e => simp [stream_generator, hg, Except.map] at h
    | ok ans =>
        simp only [stream_generator, hg, Except.map, Except.ok.injEq] at h
        subst h
        intro ev hev
        obtain ⟨w, _, rfl⟩ := List.mem_map.mp hev
        rfl
  · norm_num [streamDelay]

/-- C10 witness: a concrete run where the single yielded event carries the
fixed delay. -/
theorem claim_C10_witness :
    (∀ ev ∈ [("hi ", streamDelay)], ev.2 = streamDelay) ∧
      streamDelay = 5 / 100 :=
  claim_C10 (fun _ => .ok []) (fun _ => .ok { content := some [{ text := some "hi" }] })
    "q" [] [("hi ", streamDelay)] rfl

/-- C2: `stream_generator` computes the whole answer with a single
`generate_rag_answer` call before the first chunk, then yields exactly the
whitespace-separated words of that answer in order, each chunk one word
followed by exactly one space; no chunk is empty and the chunks depend
only on the precomputed answer string. -/
theorem claim_C2 (kb : KBService) (model : ModelService) (q : String)
    (hist : List Message) (evs : List (String × ℚ))
    (h : stream_generator kb model q hist = .ok evs) :
    ∃ ans, generate_rag_answer kb model q hist = .ok ans ∧
      evs = (pySplit ans).map (fun w => (w ++ " ", streamDelay)) ∧
      (∀ ev ∈ evs, ∃ w, ev.1 = w ++ " " ∧ w ≠ "" ∧ ∀ c ∈ w.data, ¬ c.isWhitespace) ∧
      ∀ (kb' : KBService) (model' : ModelService) (q' : String) (hist' : List Message),
        generate_rag_answer kb' model' q' hist' = .ok ans →
        stream_generator kb' model' q' hist' = .ok evs := by
  cases hg : generate_rag_answer kb model q hist with
  | error e => simp [stream_generator, hg, Except.map] at h
  | ok ans =>
      simp only [stream_generator, hg, Except.map, Except.ok.injEq] at h
      subst h
      refine ⟨ans, rfl, rfl, ?_, ?_⟩
      · intro ev hev
        obtain ⟨w, hw, rfl⟩ := List.mem_map.mp hev
        obtain ⟨hne, hws⟩ := pySplit_sound ans w hw
        exact ⟨w, rfl, hne, hws⟩
      · intro kb' model' q' hist' h'
        simp [stream_generator, h', Except.map]

/-- C2 witness: a concrete run with answer `"a  b"`, whose chunks are
`"a "` and `"b "`. -/
theorem claim_C2_witness :
    ∃ ans, generate_rag_answer (fun _ => .ok [])
        (fun _ => .ok { content := some [{ text := some "a  b" }] }) "q" [] = .ok ans ∧
      [("a ", streamDelay), ("b ", streamDelay)] =
        (pySplit ans).map (fun w => (w ++ " ", streamDelay)) ∧
      (∀ ev ∈ [("a ", streamDelay), ("b ", streamDelay)],
        ∃ w, ev.1 = w ++ " " ∧ w ≠ "" ∧ ∀ c ∈ w.data, ¬ c.isWhitespace) ∧
      ∀ (kb' : KBService) (model' : ModelService) (q' : String) (hist' : List Message),
        generate_rag_answer kb' model' q' hist' = .ok ans →
        stream_generator kb' model' q' hist' =
          .ok [("a ", streamDelay), ("b ", streamDelay)] :=
  claim_C2 (fun _ => .ok [])
    (fun _ => .ok { content := some [{ text := some "a  b" }] }) "q" []
    [("a ", streamDelay), ("b ", streamDelay)] rfl

/-- C3: for every request with a non-empty messages list, when the model
service answers with a `content` list whose first element carries text `t`,
`/rag/query` returns exactly `t` in its `"response"` field, with no
post-processing by the backend. -/
theorem claim_C3 (docs : List KBResult) (t : String) (rest : List ContentItem)
    (req : ChatRequest) (h : req.messages ≠ []) :
    rag_query_endpoint (fun _ => .ok docs)
      (fun _ => .ok { content := some ({ text := some t } :: rest) }) req =
    QueryResult.response t := by
  cases hlast : req.messages.getLast? with
  | none => exact absurd (by simpa using hlast) h
  | some m =>
      simp only [rag_query_endpoint, ragQueryBody, hlast, generate_rag_answer,
        retrieve_from_kb, generate_llm_answer, unwrapModelResponse, Except.map]
      rfl

/-- C3 witness: a concrete request and model text. -/
theorem claim_C3_witness :
    rag_query_endpoint (fun _ => .ok [])
      (fun _ => .ok { content := some [{ text := some "the answer" }] })
      { messages := [{ role := "user", content := "hello" }] } =
    QueryResult.response "the answer" :=
  claim_C3 [] "the answer" []
    { messages := [{ role := "user", content := "hello" }] } (by simp)

/-- C4: `retrieve_from_kb` issues exactly one retrieve call, with the
query text and `numberOfResults = top_k` (3 by default), and returns the
service's results without re-ranking, reordering or truncation: the
result is determined by the service's answer to that one request alone,
and formatting keeps the service's order, numbering each surviving result
by its index in the full result list (so numbers skip dropped results). -/
theorem claim_C4 (kb kb' : KBService) (query : String) (top_k : Nat)
    (h : kb { queryText := query, numberOfResults := top_k } =
         kb' { queryText := query, numberOfResults := top_k }) :
    retrieve_from_kb kb query top_k =
      (kb { queryText := query, numberOfResults := top_k }).map formatKBResults ∧
    retrieve_from_kb kb query top_k = retrieve_from_kb kb' query top_k ∧
    retrieve_from_kb kb query = retrieve_from_kb kb query 3 ∧
    ∀ candidates : List KBResult, formatKBResults candidates =
      String.intercalate "\n\n"
        ((candidates.enum.filter fun p => hasKBText p.2).map
          fun p => "Document " ++ toString (p.1 + 1) ++ ": " ++ kbTextOf p.2) := by
  refine ⟨rfl, ?_, rfl, ?_⟩
  · simp only [retrieve_from_kb, h]
  · intro candidates
    simp only [formatKBResults, filterMap_eq_filter_map_kb]

/-- C4 witness: two services agreeing on the one request that is issued,
and a concrete candidate list whose middle result lacks `content.text`,
so numbering skips from 1 to 3. -/
theorem claim_C4_witness :
    retrieve_from_kb (fun _ => .ok []) "q" 5 =
      ((fun _ => .ok []: KBService)
        { queryText := "q", numberOfResults := 5 }).map formatKBResults ∧
    retrieve_from_kb (fun _ => .ok []) "q" 5 =
      retrieve_from_kb (fun r => if r.numberOfResults = 5 then .ok [] else .error "x") "q" 5 ∧
    retrieve_from_kb (fun _ => .ok []) "q" = retrieve_from_kb (fun _ => .ok []) "q" 3 ∧
    ∀ candidates : List KBResult, formatKBResults candidates =
      String.intercalate "\n\n"
        ((candidates.enum.filter fun p => hasKBText p.2).map
          fun p => "Document " ++ toString (p.1 + 1) ++ ": " ++ kbTextOf p.2) :=
  claim_C4 (fun _ => .ok [])
    (fun r => if r.numberOfResults = 5 then .ok [] else .error "x") "q" 5 (by simp)

/-- C5: both endpoints use the first `n-1` messages as history and the
last message's content as the query, ignoring the last message's role;
`generate_rag_answer` builds one prompt holding, in order, the
knowledge-base context, the history lines `role: content` joined by
newlines, the user query, and the fixed instructions, and sends it as a
single user message with `max_tokens` 1024 and `temperature` 0.5. -/
theorem claim_C5 (kb : KBService) (model : ModelService) (ms : List Message)
    (m : Message) (r' : String) (q : String) (hist : List Message) :
    (rag_query_endpoint kb model { messages := ms ++ [m] } =
       match generate_rag_answer kb model m.content ms with
       | .ok a => QueryResult.response a
       | .error e => QueryResult.error e) ∧
    (rag_stream_endpoint kb model { messages := ms ++ [m] } =
       .ok { body := stream_generator kb model m.content ms
             media_type := "text/plain" }) ∧
    (rag_query_endpoint kb model { messages := ms ++ [{ role := r', content := m.content }] } =
       rag_query_endpoint kb model { messages := ms ++ [m] }) ∧
    (rag_stream_endpoint kb model { messages := ms ++ [{ role := r', content := m.content }] } =
       rag_stream_endpoint kb model { messages := ms ++ [m] }) ∧
    (generate_rag_answer kb model q hist =
       (kb { queryText := q, numberOfResults := 3 }).bind fun cands =>
         (model (mkLLMPayload (ragPrompt (formatKBResults cands)
            (conversationText hist) q) 1024 (0.5 : ℚ))).map unwrapModelResponse) ∧
    (∀ p mt temp, (mkLLMPayload p mt temp).messages = [{ role := "user", content := p }] ∧
       (mkLLMPayload p mt temp).max_tokens = mt ∧
       (mkLLMPayload p mt temp).temperature = temp ∧
       (mkLLMPayload p mt temp).system = "You are a helpful assistant.") ∧
    (conversationText hist =
       String.intercalate "\n" (hist.map fun msg => msg.role ++ ": " ++ msg.content)) ∧
    ∀ ctx conv uq, ragPrompt ctx conv uq =
       "\n### Knowledge Base:\n" ++ ctx ++ "\n\n### Conversation History:\n" ++ conv ++
       "\n\n### User Query:\n" ++ uq ++ "\n\n### Response Instructions:\n" ++
       "1. Provide clear, well-structured answers using normal text formatting.\n" ++
       "2. Use simple paragraphs separated by line breaks.\n" ++
       "3. If listing items, use simple bullet points with dashes (-) or numbers.\n" ++
       "4. Do NOT use markdown headers (# ## ###) or excessive bold formatting.\n" ++
       "5. Keep the text readable with normal font weight.\n" ++
       "\n### Response:\n" := by
  refine ⟨?_, ?_, ?_, ?_, ?_, fun p mt temp => ⟨rfl, rfl, rfl, rfl⟩, rfl,
    fun ctx conv uq => rfl⟩
  · simp [rag_query_endpoint, ragQueryBody]
  · simp [rag_stream_endpoint]
  · simp [rag_query_endpoint, ragQueryBody]
  · simp [rag_stream_endpoint]
  · cases hkb : kb { queryText := q, numberOfResults := 3 } with
    | error e =>
        simp only [generate_rag_answer, retrieve_from_kb, hkb, Except.map]
        rfl
    | ok cands =>
        simp only [generate_rag_answer, retrieve_from_kb, generate_llm_answer,
          hkb, Except.map]
        rfl

/-- C6: `generate_llm_answer` unwraps the model's JSON body by returning
the `text` of the first element of a present, non-empty `content` list
(the empty string when that element has no `text` field), and the literal
`"No response from model."` when `content` is absent, null, or empty. -/
theorem claim_C6 (r : ModelResponse) (model : ModelService) (prompt : String)
    (mt : Nat) (temp : ℚ) :
    (∀ item rest, r.content = some (item :: rest) →
        unwrapModelResponse r = item.text.getD "") ∧
    (∀ rest, r.content = some ({ text := none } :: rest) →
        unwrapModelResponse r = "") ∧
    (r.content = none → unwrapModelResponse r = "No response from model.") ∧
    (r.content = some [] → unwrapModelResponse r = "No response from model.") ∧
    (model (mkLLMPayload prompt mt temp) = .ok r →
        generate_llm_answer model prompt mt temp = .ok (unwrapModelResponse r)) := by
  refine ⟨?_, ?_, ?_, ?_, ?_⟩
  · intro item rest hc; simp [unwrapModelResponse, hc]
  · intro rest hc; simp [unwrapModelResponse, hc]
  · intro hc; simp [unwrapModelResponse, hc]
  · intro hc; simp [unwrapModelResponse, hc]
  · intro hm; simp [generate_llm_answer, hm, Except.map]

/-- C6 witness: the unwrapping at a concrete response whose first content
element carries text `"x"`, returned through a concrete model service. -/
theorem claim_C6_witness :
    (∀ item rest,
        (ModelResponse.mk (some [ContentItem.mk (some "x")])).content = some (item :: rest) →
        unwrapModelResponse (ModelResponse.mk (some [ContentItem.mk (some "x")])) =
          item.text.getD "") ∧
    (∀ rest,
        (ModelResponse.mk (some [ContentItem.mk (some "x")])).content =
          some ({ text := none } :: rest) →
        unwrapModelResponse (ModelResponse.mk (some [ContentItem.mk (some "x")])) = "") ∧
    ((ModelResponse.mk (some [ContentItem.mk (some "x")])).content = none →
        unwrapModelResponse (ModelResponse.mk (some [ContentItem.mk (some "x")])) =
          "No response from model.") ∧
    ((ModelResponse.mk (some [ContentItem.mk (some "x")])).content = some [] →
        unwrapModelResponse (ModelResponse.mk (some [ContentItem.mk (some "x")])) =
          "No response from model.") ∧
    ((fun _ => .ok (ModelResponse.mk (some [ContentItem.mk (some "x")])) : ModelService)
        (mkLLMPayload "p" 1024 (0.5 : ℚ)) =
          .ok (ModelResponse.mk (some [ContentItem.mk (some "x")])) →
        generate_llm_answer
            (fun _ => .ok (ModelResponse.mk (some [ContentItem.mk (some "x")])))
            "p" 1024 (0.5 : ℚ) =
          .ok (unwrapModelResponse (ModelResponse.mk (some [ContentItem.mk (some "x")])))) :=
  claim_C6 (ModelResponse.mk (some [ContentItem.mk (some "x")]))
    (fun _ => .ok (ModelResponse.mk (some [ContentItem.mk (some "x")])))
    "p" 1024 (0.5 : ℚ)

/-- C7: `/rag/query` never propagates an exception: it returns
`{"response": answer}` when the handled body succeeds and
`{"error": str(e)}` when any step raises, and the returned object carries
exactly one of the two keys, never both. -/
theorem claim_C7 (kb : KBService) (model : ModelService) (req : ChatRequest) :
    (∀ a, ragQueryBody kb model req = .ok a →
        rag_query_endpoint kb model req = QueryResult.response a) ∧
    (∀ e, ragQueryBody kb model req = .error e →
        rag_query_endpoint kb model req = QueryResult.error e) ∧
    ((∃ s, rag_query_endpoint kb model req = QueryResult.response s) ∨
     (∃ e, rag_query_endpoint kb model req = QueryResult.error e)) ∧
    ¬((∃ s, rag_query_endpoint kb model req = QueryResult.response s) ∧
      (∃ e, rag_query_endpoint kb model req = QueryResult.error e)) := by
  refine ⟨?_, ?_, ?_, ?_⟩
  · intro a ha; simp [rag_query_endpoint, ha]
  · intro e he; simp [rag_query_endpoint, he]
  · cases hb : ragQueryBody kb model req with
    | ok a => exact Or.inl ⟨a, by simp [rag_query_endpoint, hb]⟩
    | error e => exact Or.inr ⟨e, by simp [rag_query_endpoint, hb]⟩
  · rintro ⟨⟨s, hs⟩, ⟨e, he⟩⟩
    rw [hs] at he
    exact QueryResult.noConfusion he

/-- C7 witness: the success and exclusivity facts at a concrete request
whose body succeeds with answer `"hi"`. -/
theorem claim_C7_witness :
    (∀ a, ragQueryBody (fun _ => .ok [])
        (fun _ => .ok { content := some [{ text := some "hi" }] })
        { messages := [{ role := "user", content := "q" }] } = .ok a →
        rag_query_endpoint (fun _ => .ok [])
          (fun _ => .ok { content := some [{ text := some "hi" }] })
          { messages := [{ role := "user", content := "q" }] } =
          QueryResult.response a) ∧
    (∀ e, ragQueryBody (fun _ => .ok [])
        (fun _ => .ok { content := some [{ text := some "hi" }] })
        { messages := [{ role := "user", content := "q" }] } = .error e →
        rag_query_endpoint (fun _ => .ok [])
          (fun _ => .ok { content := some [{ text := some "hi" }] })
          { messages := [{ role := "user", content := "q" }] } =
          QueryResult.error e) ∧
    ((∃ s, rag_query_endpoint (fun _ => .ok [])
        (fun _ => .ok { content := some [{ text := some "hi" }] })
        { messages := [{ role := "user", content := "q" }] } =
        QueryResult.response s) ∨
     (∃ e, rag_query_endpoint (fun _ => .ok [])
        (fun _ => .ok { content := some [{ text := some "hi" }] })
        { messages := [{ role := "user", content := "q" }] } =
        QueryResult.error e)) ∧
    ¬((∃ s, rag_query_endpoint (fun _ => .ok [])
        (fun _ => .ok { content := some [{ text := some "hi" }] })
        { messages := [{ role := "user", content := "q" }] } =
        QueryResult.response s) ∧
      (∃ e, rag_query_endpoint (fun _ => .ok [])
        (fun _ => .ok { content := some [{ text := some "hi" }] })
        { messages := [{ role := "user", content := "q" }] } =
        QueryResult.error e)) :=
  claim_C7 (fun _ => .ok [])
    (fun _ => .ok { content := some [{ text := some "hi" }] })
    { messages := [{ role := "user", content := "q" }] }

/-- C9: `send_query` never raises and returns a string determined by the
outcome: the backend's `"response"` value on success,
`"No response received"` when that key is absent, `"Error: "` plus the
backend's `"error"` value for a backend error object,
`"Connection error: "` plus the exception text for a request exception,
`"Error: Invalid response format"` for a JSON decode failure, and
`"Unexpected error: "` plus the exception text otherwise. -/
theorem claim_C9 (outcome : HTTPOutcome) :
    (∀ res e, outcome = .ok res → res.error = some e →
        send_query outcome = "Error: " ++ e) ∧
    (∀ res s, outcome = .ok res → res.error = none → res.response = some s →
        send_query outcome = s) ∧
    (∀ res, outcome = .ok res → res.error = none → res.response = none →
        send_query outcome = "No response received") ∧
    (∀ m, outcome = .requestException m →
        send_query outcome = "Connection error: " ++ m) ∧
    (outcome = .jsonDecodeError →
        send_query outcome = "Error: Invalid response format") ∧
    (∀ m, outcome = .otherException m →
        send_query outcome = "Unexpected error: " ++ m) := by
  refine ⟨?_, ?_, ?_, ?_, ?_, ?_⟩
  · rintro res e rfl he; simp [send_query, he]
  · rintro res s rfl he hs; simp [send_query, he, hs]
  · rintro res rfl he hs; simp [send_query, he, hs]
  · rintro m rfl; rfl
  · rintro rfl; rfl
  · rintro m rfl; rfl

/-- C9 witness: the characterization at a concrete successful outcome
carrying `response = "ok!"` and no error key. -/
theorem claim_C9_witness :
    (∀ res e, HTTPOutcome.ok (BackendResult.mk none (some "ok!")) = .ok res →
        res.error = some e →
        send_query (HTTPOutcome.ok (BackendResult.mk none (some "ok!"))) =
          "Error: " ++ e) ∧
    (∀ res s, HTTPOutcome.ok (BackendResult.mk none (some "ok!")) = .ok res →
        res.error = none → res.response = some s →
        send_query (HTTPOutcome.ok (BackendResult.mk none (some "ok!"))) = s) ∧
    (∀ res, HTTPOutcome.ok (BackendResult.mk none (some "ok!")) = .ok res →
        res.error = none → res.response = none →
        send_query (HTTPOutcome.ok (BackendResult.mk none (some "ok!"))) =
          "No response received") ∧
    (∀ m, HTTPOutcome.ok (BackendResult.mk none (some "ok!")) = .requestException m →
        send_query (HTTPOutcome.ok (BackendResult.mk none (some "ok!"))) =
          "Connection error: " ++ m) ∧
    (HTTPOutcome.ok (BackendResult.mk none (some "ok!")) = .jsonDecodeError →
        send_query (HTTPOutcome.ok (BackendResult.mk none (some "ok!"))) =
          "Error: Invalid response format") ∧
    (∀ m, HTTPOutcome.ok (BackendResult.mk none (some "ok!")) = .otherException m →
        send_query (HTTPOutcome.ok (BackendResult.mk none (some "ok!"))) =
          "Unexpected error: " ++ m) :=
  claim_C9 (HTTPOutcome.ok (BackendResult.mk none (some "ok!")))

/-- C1 counterexample: with a model answer `"hi"`, `/rag/query` returns
`"hi"` but the string delivered by `/rag/stream` is `"hi "` (trailing
space), so the two strings are not equal as the claim states. -/
theorem claim_C1_counterexample :
    rag_query_endpoint (fun _ => .ok [])
        (fun _ => .ok { content := some [{ text := some "hi" }] })
        { messages := [{ role := "user", content := "q" }] } =
      QueryResult.response "hi" ∧
    (rag_stream_endpoint (fun _ => .ok [])
        (fun _ => .ok { content := some [{ text := some "hi" }] })
        { messages := [{ role := "user", content := "q" }] }).map
        (fun sr => sr.body.map fun evs => String.join (evs.map Prod.fst)) =
      .ok (.ok "hi ") ∧
    ("hi " : String) ≠ "hi" :=
  ⟨rfl, rfl, by decide⟩

/-- C1 (amended): for every request with a non-empty messages list, the
stream produced by `/rag/stream` is computed from the very answer the
`/rag/query` body computes — the delivered string is the concatenation of
the whitespace-separated words of the `/rag/query` `"response"` value,
each followed by exactly one space (equal to the response itself only up
to whitespace normalization and a trailing space); streaming is a
fixed-delay loop over that already fully computed string. -/
theorem claim_C1 (kb : KBService) (model : ModelService) (req : ChatRequest)
    (sr : StreamingResponse)
    (hs : rag_stream_endpoint kb model req = .ok sr) :
    sr.body = (ragQueryBody kb model req).map
        (fun ans => (pySplit ans).map fun w => (w ++ " ", streamDelay)) ∧
    ∀ ans, rag_query_endpoint kb model req = QueryResult.response ans →
      sr.body.map (fun evs => String.join (evs.map Prod.fst)) =
        .ok (String.join ((pySplit ans).map fun w => w ++ " ")) := by
  cases hlast : req.messages.getLast? with
  | none => simp [rag_stream_endpoint, hlast] at hs
  | some m =>
      simp only [rag_stream_endpoint, hlast, Except.ok.injEq] at hs
      subst hs
      constructor
      · simp [stream_generator, ragQueryBody, hlast]
      · intro ans hans
        have hbody : ragQueryBody kb model req = .ok ans := by
          cases hb : ragQueryBody kb model req with
          | ok a =>
              simp only [rag_query_endpoint, hb, QueryResult.response.injEq] at hans
              rw [hans]
          | error e => simp [rag_query_endpoint, hb] at hans
        simp only [ragQueryBody, hlast] at hbody
        simp only [stream_generator, hbody, Except.map, List.map_map]
        rfl

/-- C1 witness: a concrete request where the `/rag/query` response is
`"a b"` and the delivered stream is `"a b "`. -/
theorem claim_C1_witness :
    ({ body := stream_generator (fun _ => .ok [])
          (fun _ => .ok { content := some [{ text := some "a b" }] }) "q" []
       media_type := "text/plain" } : StreamingResponse).body =
      (ragQueryBody (fun _ => .ok [])
          (fun _ => .ok { content := some [{ text := some "a b" }] })
          { messages := [{ role := "user", content := "q" }] }).map
        (fun ans => (pySplit ans).map fun w => (w ++ " ", streamDelay)) ∧
    ∀ ans, rag_query_endpoint (fun _ => .ok [])
          (fun _ => .ok { content := some [{ text := some "a b" }] })
          { messages := [{ role := "user", content := "q" }] } =
        QueryResult.response ans →
      (({ body := stream_generator (fun _ => .ok [])
            (fun _ => .ok { content := some [{ text := some "a b" }] }) "q" []
          media_type := "text/plain" } : StreamingResponse)).body.map
          (fun evs => String.join (evs.map Prod.fst)) =
        .ok (String.join ((pySplit ans).map fun w => w ++ " ")) :=
  claim_C1 (fun _ => .ok [])
    (fun _ => .ok { content := some [{ text := some "a b" }] })
    { messages := [{ role := "user", content := "q" }] }
    { body := stream_generator (fun _ => .ok [])
        (fun _ => .ok { content := some [{ text := some "a b" }] }) "q" []
      media_type := "text/plain" } rfl

end RAGProject
